import Mathlib

/-!
# go-webrtc: the Go wrapper `webrtc.go` around the native peer-connection engine

Shallow embedding of `src/webrtc.go`.

* Go objects reached through pointers live in typed stores of a `World`
  (one list per Go type, an address is an index into the list); `new(T)`
  appends the zero value and yields the address of the new cell.
* A nil dereference is a Go run-time panic: every operation returns an
  `Option`, and `none` stands for the panic.
* The native engine (`cpeerconnection.h`, not part of the Go source) is a
  parameter: a record `Engine σ` of state-passing functions over an
  arbitrary engine state `σ`, one per `C.CGO...` entry point the Go code calls.
  Native handles are machine addresses, `0` being the null pointer.
-/

namespace Webrtc

/-! ## Values shared with C -/

/-- Go pointer: `nil`, or the address of a cell of the store of its type. -/
inductive Ptr where
  | nil : Ptr
  | addr (a : Nat) : Ptr
  deriving DecidableEq, Repr

/-- Native handle `C.CGOsdp` (a C pointer); `0` is the null pointer. -/
abbrev CGOsdp := Nat

/-- Native handle `C.CGOPeer` (a C pointer); `0` is the null pointer. -/
abbrev CGOPeer := Nat

/-- C string `*C.char`: `none` is the null pointer, `some s` the bytes before
the terminator. -/
abbrev CStr := Option String

/-- Go `error`: `none` is the nil error, `some msg` is `errors.New(msg)`. -/
abbrev GoError := Option String

/-- Go slice of strings: `none` is the nil slice. -/
abbrev StringSlice := Option (List String)

/-- Go builtin `len` on a slice of strings. -/
def StringSlice.len : StringSlice → Nat
  | none => 0
  | some xs => xs.length

/-- Go `C.CString(s)`: a fresh C copy of the Go string, never null. -/
def CString (s : String) : CStr := some s

/-- Go `C.GoString(p)`: the Go copy of a C string; the null pointer gives `""`. -/
def GoString : CStr → String
  | none => ""
  | some s => s

/-- Go `C.int(x)` for a Go `int`: conversion to the 32-bit signed C `int` wraps. -/
def CInt (x : Int) : Int := (x + 2 ^ 31) % 2 ^ 32 - 2 ^ 31

/-! ## Data model (`webrtc.go` lines 47-125) -/

/-- Go `type SDPHeader struct`: the native description handle and the serialized
string the native code generated for it. -/
structure SDPHeader where
  cgoSdp : CGOsdp
  description : String
  deriving DecidableEq, Repr

/-- The C struct `C.CGORTCConfiguration`, with the fields `CGO()` assigns. -/
structure CGORTCConfiguration where
  IceTransportPolicy : CStr
  BundlePolicy : CStr
  RtcpMuxPolicy : CStr
  PeerIdentity : CStr
  IceCandidatePoolSize : Int
  deriving DecidableEq, Repr

/-- Go `type RTCConfiguration struct`; `cgoConfig` points into the store of
`CGORTCConfiguration` cells. -/
structure RTCConfiguration where
  IceServers : StringSlice
  IceTransportPolicy : String
  BundlePolicy : String
  RtcpMuxPolicy : String
  PeerIdentity : String
  Certificates : StringSlice
  IceCandidatePoolSize : Int
  cgoConfig : Ptr
  deriving DecidableEq, Repr

/-- Go `type PeerConnection struct`. `localDescription` and `remoteDescription`
point into the store of `SDPHeader` cells; `OnIceCandidate` is a Go func value
(`none` is nil, otherwise an opaque identity). The struct has no other field:
the signaling, gathering and connection states are comments in the source. -/
structure PeerConnection where
  localDescription : Ptr
  remoteDescription : Ptr
  OnIceCandidate : Option Nat
  IceServers : String
  cgoPeer : CGOPeer
  deriving DecidableEq, Repr

/-- Go `type DataChannel struct {}`. -/
structure DataChannel where
  deriving DecidableEq, Repr

/-- Go `type DataChannelInit struct {}`. -/
structure DataChannelInit where
  deriving DecidableEq, Repr

/-- Zero value of `C.CGORTCConfiguration`, as `new` yields it. -/
def CGORTCConfiguration.zero : CGORTCConfiguration :=
  { IceTransportPolicy := none, BundlePolicy := none, RtcpMuxPolicy := none,
    PeerIdentity := none, IceCandidatePoolSize := 0 }

/-- Zero value of `RTCConfiguration`, as `new` yields it. -/
def RTCConfiguration.zero : RTCConfiguration :=
  { IceServers := none, IceTransportPolicy := "", BundlePolicy := "",
    RtcpMuxPolicy := "", PeerIdentity := "", Certificates := none,
    IceCandidatePoolSize := 0, cgoConfig := Ptr.nil }

/-- Zero value of `PeerConnection`, as `new` yields it. -/
def PeerConnection.zero : PeerConnection :=
  { localDescription := Ptr.nil, remoteDescription := Ptr.nil,
    OnIceCandidate := none, IceServers := "", cgoPeer := 0 }

/-- Zero value of `SDPHeader`, as `new` yields it. -/
def SDPHeader.zero : SDPHeader := { cgoSdp := 0, description := "" }

/-! ## The native engine and the world -/

/-- The native entry points called from `webrtc.go`, over an engine state `σ`.
Each takes the engine state and returns its C result with the next state. -/
structure Engine (σ : Type) where
  CGOInitializePeer : σ → CGOPeer × σ
  CGOCreatePeerConnection : σ → CGOPeer → CGORTCConfiguration → Int × σ
  CGOCreateOffer : σ → CGOPeer → CGOsdp × σ
  CGOCreateAnswer : σ → CGOPeer → CGOsdp × σ
  CGOSerializeSDP : σ → CGOsdp → CStr × σ
  CGOSetLocalDescription : σ → CGOPeer → CGOsdp → Int × σ
  CGOSetRemoteDescription : σ → CGOPeer → CGOsdp → Int × σ
  CGOCreateDataChannel : σ → CGOPeer → CStr → DataChannelInit → σ

/-- Everything the program can read or write: the engine state, one store per
Go type reached through pointers, and the lines printed on standard output. -/
structure World (σ : Type) where
  eng : σ
  sdps : List SDPHeader
  configs : List RTCConfiguration
  cconfigs : List CGORTCConfiguration
  pcs : List PeerConnection
  dcs : List DataChannel
  stdout : List String

/-- Read the `SDPHeader` a pointer refers to; `none` when it is nil. -/
def World.sdpAt {σ : Type} (w : World σ) : Ptr → Option SDPHeader
  | Ptr.nil => none
  | Ptr.addr a => w.sdps[a]?

/-- Read the `RTCConfiguration` a pointer refers to; `none` when it is nil. -/
def World.configAt {σ : Type} (w : World σ) : Ptr → Option RTCConfiguration
  | Ptr.nil => none
  | Ptr.addr a => w.configs[a]?

/-- Read the `PeerConnection` a pointer refers to; `none` when it is nil. -/
def World.pcAt {σ : Type} (w : World σ) : Ptr → Option PeerConnection
  | Ptr.nil => none
  | Ptr.addr a => w.pcs[a]?

/-- Read the `DataChannel` a pointer refers to; `none` when it is nil. -/
def World.dcAt {σ : Type} (w : World σ) : Ptr → Option DataChannel
  | Ptr.nil => none
  | Ptr.addr a => w.dcs[a]?

/-- Go `func NewRTCConfiguration() *RTCConfiguration` (lines 69-78). -/
def NewRTCConfiguration {σ : Type} (w : World σ) : Ptr × World σ :=
  let c := RTCConfiguration.zero
  let c := { c with IceServers := none }
  let c := { c with IceTransportPolicy := "all" }
  let c := { c with BundlePolicy := "balanced" }
  let c := { c with RtcpMuxPolicy := "require" }
  let c := { c with Certificates := some [] }
  (Ptr.addr w.configs.length, { w with configs := w.configs ++ [c] })

/-- Go `func (config *RTCConfiguration) CGO() C.CGORTCConfiguration` (lines 79-90):
allocates the C struct, copies the fields out of `config`, stores the address
of the C struct in `config.cgoConfig` and returns the C struct by value. -/
def RTCConfiguration.CGO {σ : Type} (w : World σ) (config : Ptr) :
    Option (CGORTCConfiguration × World σ) :=
  match config with
  | Ptr.nil => none
  | Ptr.addr a =>
    match w.configs[a]? with
    | none => none
    | some cfg =>
      let c := CGORTCConfiguration.zero
      let c := { c with IceTransportPolicy := CString cfg.IceTransportPolicy }
      let c := { c with BundlePolicy := CString cfg.BundlePolicy }
      let c := { c with RtcpMuxPolicy := CString cfg.RtcpMuxPolicy }
      let c := { c with PeerIdentity := CString cfg.PeerIdentity }
      let c := { c with IceCandidatePoolSize := CInt cfg.IceCandidatePoolSize }
      some (c, { w with
        cconfigs := w.cconfigs ++ [c]
        configs := w.configs.set a { cfg with cgoConfig := Ptr.addr w.cconfigs.length } })

/-- Go `func NewPeerConnection(config *RTCConfiguration) (*PeerConnection, error)`
(lines 128-142). -/
def NewPeerConnection {σ : Type} (E : Engine σ) (w : World σ) (config : Ptr) :
    Option ((Ptr × GoError) × World σ) :=
  let pc := Ptr.addr w.pcs.length
  let r := E.CGOInitializePeer w.eng
  let w1 : World σ :=
    { w with eng := r.2, pcs := w.pcs ++ [{ PeerConnection.zero with cgoPeer := r.1 }] }
  if r.1 = 0 then
    some ((pc, some "PeerConnection: failed to initialize."), w1)
  else
    match RTCConfiguration.CGO w1 config with
    | none => none
    | some (cConfig, w2) =>
      let r2 := E.CGOCreatePeerConnection w2.eng r.1 cConfig
      let w3 : World σ := { w2 with eng := r2.2 }
      if r2.1 ≠ 0 then
        some ((Ptr.nil, some "PeerConnection: could not create from config."), w3)
      else
        some ((pc, none), w3)

/-- Go `func (pc *PeerConnection) CreateOffer() (*SDPHeader, error)` (lines 146-155). -/
def CreateOffer {σ : Type} (E : Engine σ) (w : World σ) (pc : Ptr) :
    Option ((Ptr × GoError) × World σ) :=
  match w.pcAt pc with
  | none => none
  | some p =>
    let r := E.CGOCreateOffer w.eng p.cgoPeer
    if r.1 = 0 then
      some ((Ptr.nil, some "CreateOffer: could not prepare SDP offer."), { w with eng := r.2 })
    else
      let s := E.CGOSerializeSDP r.2 r.1
      let offer : SDPHeader := { SDPHeader.zero with cgoSdp := r.1 }
      let offer : SDPHeader := { offer with description := GoString s.1 }
      some ((Ptr.addr w.sdps.length, none),
        { w with eng := s.2, sdps := w.sdps ++ [offer] })

/-- Go `func (pc *PeerConnection) SetLocalDescription(sdp *SDPHeader) error`
(lines 157-164). -/
def SetLocalDescription {σ : Type} (E : Engine σ) (w : World σ) (pc sdp : Ptr) :
    Option (GoError × World σ) :=
  match pc, w.pcAt pc, w.sdpAt sdp with
  | Ptr.addr a, some p, some hdr =>
    let r := E.CGOSetLocalDescription w.eng p.cgoPeer hdr.cgoSdp
    if 0 ≠ r.1 then
      some (some "SetLocalDescription failed.", { w with eng := r.2 })
    else
      some (none, { w with
        eng := r.2
        pcs := w.pcs.set a { p with localDescription := sdp } })
  | _, _, _ => none

/-- Go `func (pc *PeerConnection) LocalDescription() (sdp *SDPHeader)` (lines 167-169). -/
def LocalDescription {σ : Type} (w : World σ) (pc : Ptr) : Option Ptr :=
  match w.pcAt pc with
  | none => none
  | some p => some p.localDescription

/-- Go `func (pc *PeerConnection) SetRemoteDescription(sdp *SDPHeader) error`
(lines 171-178). -/
def SetRemoteDescription {σ : Type} (E : Engine σ) (w : World σ) (pc sdp : Ptr) :
    Option (GoError × World σ) :=
  match pc, w.pcAt pc, w.sdpAt sdp with
  | Ptr.addr a, some p, some hdr =>
    let r := E.CGOSetRemoteDescription w.eng p.cgoPeer hdr.cgoSdp
    if 0 ≠ r.1 then
      some (some "SetRemoteDescription failed.", { w with eng := r.2 })
    else
      some (none, { w with
        eng := r.2
        pcs := w.pcs.set a { p with remoteDescription := sdp } })
  | _, _, _ => none

/-- Go `func (pc *PeerConnection) RemoteDescription() (sdp *SDPHeader)` (lines 181-183). -/
def RemoteDescription {σ : Type} (w : World σ) (pc : Ptr) : Option Ptr :=
  match w.pcAt pc with
  | none => none
  | some p => some p.remoteDescription

/-- Go `func (pc *PeerConnection) CreateAnswer() (*SDPHeader, error)` (lines 187-197). -/
def CreateAnswer {σ : Type} (E : Engine σ) (w : World σ) (pc : Ptr) :
    Option ((Ptr × GoError) × World σ) :=
  let w0 : World σ := { w with stdout := w.stdout ++ ["[go] creating answer..."] }
  match w0.pcAt pc with
  | none => none
  | some p =>
    let r := E.CGOCreateAnswer w0.eng p.cgoPeer
    if r.1 = 0 then
      some ((Ptr.nil, some "[C ERROR] CreateAnswer - could not prepare SDP offer."),
        { w0 with eng := r.2 })
    else
      let s := E.CGOSerializeSDP r.2 r.1
      let answer : SDPHeader := { SDPHeader.zero with cgoSdp := r.1 }
      let answer : SDPHeader := { answer with description := GoString s.1 }
      some ((Ptr.addr w0.sdps.length, none),
        { w0 with eng := s.2, sdps := w0.sdps ++ [answer] })

/-- Go `func (pc *PeerConnection) CreateDataChannel(label string, dict DataChannelInit)
(*DataChannel, error)` (lines 203-207). -/
def CreateDataChannel {σ : Type} (E : Engine σ) (w : World σ) (pc : Ptr)
    (labelText : String) (dict : DataChannelInit) : Option ((Ptr × GoError) × World σ) :=
  match w.pcAt pc with
  | none => none
  | some p =>
    let e := E.CGOCreateDataChannel w.eng p.cgoPeer (CString labelText) dict
    some ((Ptr.addr w.dcs.length, none),
      { w with eng := e, dcs := w.dcs ++ [{}] })

/-! ## A scripted engine for concrete runs -/

/-- An engine whose answers are fixed in advance; its state counts the native
calls made so far. -/
def scriptedEngine (peer : CGOPeer) (createRc : Int) (offer answer : CGOsdp)
    (text : CStr) (setLocalRc setRemoteRc : Int) : Engine Nat :=
  { CGOInitializePeer := fun n => (peer, n + 1)
    CGOCreatePeerConnection := fun n _ _ => (createRc, n + 1)
    CGOCreateOffer := fun n _ => (offer, n + 1)
    CGOCreateAnswer := fun n _ => (answer, n + 1)
    CGOSerializeSDP := fun n _ => (text, n + 1)
    CGOSetLocalDescription := fun n _ _ => (setLocalRc, n + 1)
    CGOSetRemoteDescription := fun n _ _ => (setRemoteRc, n + 1)
    CGOCreateDataChannel := fun n _ _ _ => n + 1 }

/-- Scripted engine that rejects every description it is asked to set. -/
def rejectingEngine : Engine Nat := scriptedEngine 7 0 5 6 (some "v=0") 1 1

/-- Scripted engine that accepts every request. -/
def acceptingEngine : Engine Nat := scriptedEngine 7 0 5 6 (some "v=0") 0 0

/-- Scripted engine that cannot create descriptions: offer and answer are null. -/
def barrenEngine : Engine Nat := scriptedEngine 7 0 0 0 none 0 0

/-- Scripted engine whose session initialisation returns the null peer. -/
def deadEngine : Engine Nat := scriptedEngine 0 0 5 6 (some "v=0") 0 0

/-- Header of the one description stored in `World.sample`. -/
def sampleHeader : SDPHeader := { cgoSdp := 5, description := "v=0" }

/-- The one peer connection stored in `World.sample`. -/
def samplePeer : PeerConnection := { PeerConnection.zero with cgoPeer := 7 }

/-- The world of a program that has allocated nothing yet. -/
def World.initial : World Nat :=
  { eng := 0, sdps := [], configs := [], cconfigs := [], pcs := [], dcs := [], stdout := [] }

/-- A world holding one peer connection (address 0, native peer 7, no
description set) and one session description (address 0). -/
def World.sample : World Nat :=
  { eng := 0
    sdps := [sampleHeader]
    configs := []
    cconfigs := []
    pcs := [samplePeer]
    dcs := []
    stdout := [] }

/-- The world after the caller obtained a default configuration (address 0)
from `NewRTCConfiguration()`. -/
def World.configured : World Nat := (NewRTCConfiguration World.initial).2

/-- The world after `NewPeerConnection` succeeded on `World.configured` with
the accepting engine: one peer connection at address 0, no description yet. -/
def World.connected : World Nat :=
  { eng := 2
    sdps := []
    configs := [{ RTCConfiguration.zero with
      IceTransportPolicy := "all", BundlePolicy := "balanced", RtcpMuxPolicy := "require",
      Certificates := some [], cgoConfig := Ptr.addr 0 }]
    cconfigs := [{ CGORTCConfiguration.zero with
      IceTransportPolicy := some "all", BundlePolicy := some "balanced",
      RtcpMuxPolicy := some "require", PeerIdentity := some "" }]
    pcs := [samplePeer]
    dcs := []
    stdout := [] }

/-- The C struct `CGO()` builds from a configuration. -/
def nativeCopy (cfg : RTCConfiguration) : CGORTCConfiguration :=
  { IceTransportPolicy := CString cfg.IceTransportPolicy
    BundlePolicy := CString cfg.BundlePolicy
    RtcpMuxPolicy := CString cfg.RtcpMuxPolicy
    PeerIdentity := CString cfg.PeerIdentity
    IceCandidatePoolSize := CInt cfg.IceCandidatePoolSize }

/-! ## Store lemmas -/

theorem pcAt_addr {σ : Type} {w : World σ} {pc : Ptr} {p : PeerConnection}
    (h : w.pcAt pc = some p) : ∃ a, pc = Ptr.addr a ∧ w.pcs[a]? = some p ∧ a < w.pcs.length := by
  cases pc with
  | nil => simp [World.pcAt] at h
  | addr a =>
    refine ⟨a, rfl, h, ?_⟩
    simp only [World.pcAt] at h
    exact (List.getElem?_eq_some.mp h).1

theorem sdpAt_append {σ : Type} (w : World σ) (q : Ptr) (hdr x : SDPHeader)
    (h : w.sdpAt q = some hdr) (w' : World σ) (hw : w'.sdps = w.sdps ++ [x]) :
    w'.sdpAt q = some hdr := by
  cases q with
  | nil => simp [World.sdpAt] at h
  | addr a =>
    simp only [World.sdpAt] at h ⊢
    rw [hw, List.getElem?_append_left (List.getElem?_eq_some.mp h).1]
    exact h

theorem CreateOffer_null {σ : Type} (E : Engine σ) (w : World σ) (pc : Ptr)
    (p : PeerConnection) (hp : w.pcAt pc = some p)
    (h : (E.CGOCreateOffer w.eng p.cgoPeer).1 = 0) :
    CreateOffer E w pc = some ((Ptr.nil, some "CreateOffer: could not prepare SDP offer."),
      { w with eng := (E.CGOCreateOffer w.eng p.cgoPeer).2 }) := by
  simp only [CreateOffer, hp]
  rw [if_pos h]

theorem CreateOffer_handle {σ : Type} (E : Engine σ) (w : World σ) (pc : Ptr)
    (p : PeerConnection) (hp : w.pcAt pc = some p)
    (h : (E.CGOCreateOffer w.eng p.cgoPeer).1 ≠ 0) :
    CreateOffer E w pc = some ((Ptr.addr w.sdps.length, none),
      { w with
        eng := (E.CGOSerializeSDP (E.CGOCreateOffer w.eng p.cgoPeer).2
          (E.CGOCreateOffer w.eng p.cgoPeer).1).2
        sdps := w.sdps ++ [{
          cgoSdp := (E.CGOCreateOffer w.eng p.cgoPeer).1
          description := GoString (E.CGOSerializeSDP (E.CGOCreateOffer w.eng p.cgoPeer).2
            (E.CGOCreateOffer w.eng p.cgoPeer).1).1 }] }) := by
  simp only [CreateOffer, hp]
  rw [if_neg h]

theorem CreateAnswer_null {σ : Type} (E : Engine σ) (w : World σ) (pc : Ptr)
    (p : PeerConnection) (hp : w.pcAt pc = some p)
    (h : (E.CGOCreateAnswer w.eng p.cgoPeer).1 = 0) :
    CreateAnswer E w pc
      = some ((Ptr.nil, some "[C ERROR] CreateAnswer - could not prepare SDP offer."),
      { w with
        eng := (E.CGOCreateAnswer w.eng p.cgoPeer).2
        stdout := w.stdout ++ ["[go] creating answer..."] }) := by
  have hp0 : World.pcAt { w with stdout := w.stdout ++ ["[go] creating answer..."] } pc
      = some p := by
    cases pc <;> simp [World.pcAt] at hp ⊢
    exact hp
  simp only [CreateAnswer, hp0]
  rw [if_pos h]

theorem CreateAnswer_handle {σ : Type} (E : Engine σ) (w : World σ) (pc : Ptr)
    (p : PeerConnection) (hp : w.pcAt pc = some p)
    (h : (E.CGOCreateAnswer w.eng p.cgoPeer).1 ≠ 0) :
    CreateAnswer E w pc = some ((Ptr.addr w.sdps.length, none),
      { w with
        eng := (E.CGOSerializeSDP (E.CGOCreateAnswer w.eng p.cgoPeer).2
          (E.CGOCreateAnswer w.eng p.cgoPeer).1).2
        sdps := w.sdps ++ [{
          cgoSdp := (E.CGOCreateAnswer w.eng p.cgoPeer).1
          description := GoString (E.CGOSerializeSDP (E.CGOCreateAnswer w.eng p.cgoPeer).2
            (E.CGOCreateAnswer w.eng p.cgoPeer).1).1 }]
        stdout := w.stdout ++ ["[go] creating answer..."] }) := by
  have hp0 : World.pcAt { w with stdout := w.stdout ++ ["[go] creating answer..."] } pc
      = some p := by
    cases pc <;> simp [World.pcAt] at hp ⊢
    exact hp
  simp only [CreateAnswer, hp0]
  rw [if_neg h]

theorem configAt_addr {σ : Type} {w : World σ} {config : Ptr} {cfg : RTCConfiguration}
    (h : w.configAt config = some cfg) :
    ∃ a, config = Ptr.addr a ∧ w.configs[a]? = some cfg ∧ a < w.configs.length := by
  cases config with
  | nil => simp [World.configAt] at h
  | addr a =>
    refine ⟨a, rfl, h, ?_⟩
    simp only [World.configAt] at h
    exact (List.getElem?_eq_some.mp h).1

theorem NewPeerConnection_dead {σ : Type} (E : Engine σ) (w : World σ) (config : Ptr)
    (h : (E.CGOInitializePeer w.eng).1 = 0) :
    NewPeerConnection E w config
      = some ((Ptr.addr w.pcs.length, some "PeerConnection: failed to initialize."),
        { w with
          eng := (E.CGOInitializePeer w.eng).2
          pcs := w.pcs ++ [{ PeerConnection.zero with
            cgoPeer := (E.CGOInitializePeer w.eng).1 }] }) := by
  simp only [NewPeerConnection]
  rw [if_pos h]

theorem NewPeerConnection_live {σ : Type} (E : Engine σ) (w : World σ) (a : Nat)
    (cfg : RTCConfiguration) (hc : w.configs[a]? = some cfg)
    (h : (E.CGOInitializePeer w.eng).1 ≠ 0) :
    NewPeerConnection E w (Ptr.addr a)
      = some (
        (if (E.CGOCreatePeerConnection (E.CGOInitializePeer w.eng).2
              (E.CGOInitializePeer w.eng).1 (nativeCopy cfg)).1 ≠ 0
          then (Ptr.nil, some "PeerConnection: could not create from config.")
          else (Ptr.addr w.pcs.length, none)),
        { w with
          eng := (E.CGOCreatePeerConnection (E.CGOInitializePeer w.eng).2
            (E.CGOInitializePeer w.eng).1 (nativeCopy cfg)).2
          pcs := w.pcs ++ [{ PeerConnection.zero with
            cgoPeer := (E.CGOInitializePeer w.eng).1 }]
          cconfigs := w.cconfigs ++ [nativeCopy cfg]
          configs := w.configs.set a { cfg with cgoConfig := Ptr.addr w.cconfigs.length } }) := by
  simp only [NewPeerConnection]
  rw [if_neg h]
  simp only [RTCConfiguration.CGO, hc, nativeCopy]
  split_ifs <;> rfl

theorem SetLocalDescription_ok {σ : Type} {E : Engine σ} {w w' : World σ} {pc sdp : Ptr}
    (h : SetLocalDescription E w pc sdp = some (none, w')) :
    ∃ a p, pc = Ptr.addr a ∧ w.pcs[a]? = some p ∧
      w'.pcs = w.pcs.set a { p with localDescription := sdp } ∧ w'.sdps = w.sdps := by
  unfold SetLocalDescription at h
  split at h
  · rename_i a p hdr hs hp
    dsimp only at h
    split_ifs at h
    · simp at h
    · simp only [Option.some.injEq, Prod.mk.injEq, true_and] at h
      exact ⟨a, p, rfl, hp, by rw [← h], by rw [← h]⟩
  · simp at h

theorem SetRemoteDescription_ok {σ : Type} {E : Engine σ} {w w' : World σ} {pc sdp : Ptr}
    (h : SetRemoteDescription E w pc sdp = some (none, w')) :
    ∃ a p, pc = Ptr.addr a ∧ w.pcs[a]? = some p ∧
      w'.pcs = w.pcs.set a { p with remoteDescription := sdp } ∧ w'.sdps = w.sdps := by
  unfold SetRemoteDescription at h
  split at h
  · rename_i a p hdr hs hp
    dsimp only at h
    split_ifs at h
    · simp at h
    · simp only [Option.some.injEq, Prod.mk.injEq, true_and] at h
      exact ⟨a, p, rfl, hp, by rw [← h], by rw [← h]⟩
  · simp at h

theorem NewPeerConnection_ok {σ : Type} {E : Engine σ} {w w' : World σ} {config pc : Ptr}
    (h : NewPeerConnection E w config = some ((pc, none), w')) :
    pc = Ptr.addr w.pcs.length ∧
      w'.pcs = w.pcs ++ [{ PeerConnection.zero with cgoPeer := (E.CGOInitializePeer w.eng).1 }] := by
  by_cases h0 : (E.CGOInitializePeer w.eng).1 = 0
  · rw [NewPeerConnection_dead E w config h0] at h
    simp at h
  · cases config with
    | nil => simp [NewPeerConnection, h0, RTCConfiguration.CGO] at h
    | addr a =>
      cases hc : w.configs[a]? with
      | none => simp [NewPeerConnection, h0, RTCConfiguration.CGO, hc] at h
      | some cfg =>
        rw [NewPeerConnection_live E w a cfg hc h0] at h
        simp only [Option.some.injEq, Prod.mk.injEq] at h
        obtain ⟨h1, h2⟩ := h
        split_ifs at h1
        · simp at h1
        · simp only [Prod.mk.injEq, and_true] at h1
          exact ⟨h1.symm, by rw [← h2]⟩

theorem CreateOffer_ok {σ : Type} {E : Engine σ} {w w' : World σ} {pc d : Ptr} {err : GoError}
    (h : CreateOffer E w pc = some ((d, err), w')) : w'.pcs = w.pcs := by
  cases hp : w.pcAt pc with
  | none => simp [CreateOffer, hp] at h
  | some p =>
    by_cases h0 : (E.CGOCreateOffer w.eng p.cgoPeer).1 = 0
    · rw [CreateOffer_null E w pc p hp h0] at h
      simp only [Option.some.injEq, Prod.mk.injEq] at h
      rw [← h.2]
    · rw [CreateOffer_handle E w pc p hp h0] at h
      simp only [Option.some.injEq, Prod.mk.injEq] at h
      rw [← h.2]

/-! ## Theorems -/

/-- C1: when the native set call returns a non-zero code, `SetLocalDescription`
returns an error and the peer connection's local and remote description (the
pointers and every stored description) are as before the call; the same holds
for `SetRemoteDescription`. -/
theorem rejected_set_keeps_descriptions {σ : Type} (E : Engine σ) (w : World σ)
    (pc sdp : Ptr) (p : PeerConnection) (hdr : SDPHeader)
    (hp : w.pcAt pc = some p) (hs : w.sdpAt sdp = some hdr) :
    ((E.CGOSetLocalDescription w.eng p.cgoPeer hdr.cgoSdp).1 ≠ 0 →
      ∃ msg w', SetLocalDescription E w pc sdp = some (some msg, w') ∧
        LocalDescription w' pc = LocalDescription w pc ∧
        RemoteDescription w' pc = RemoteDescription w pc ∧
        w'.pcs = w.pcs ∧ w'.sdps = w.sdps) ∧
    ((E.CGOSetRemoteDescription w.eng p.cgoPeer hdr.cgoSdp).1 ≠ 0 →
      ∃ msg w', SetRemoteDescription E w pc sdp = some (some msg, w') ∧
        LocalDescription w' pc = LocalDescription w pc ∧
        RemoteDescription w' pc = RemoteDescription w pc ∧
        w'.pcs = w.pcs ∧ w'.sdps = w.sdps) := by
  obtain ⟨a, rfl, -, -⟩ := pcAt_addr hp
  constructor
  · intro h
    have h' : ¬ (0 = (E.CGOSetLocalDescription w.eng p.cgoPeer hdr.cgoSdp).1) :=
      fun e => h e.symm
    refine ⟨"SetLocalDescription failed.",
      { w with eng := (E.CGOSetLocalDescription w.eng p.cgoPeer hdr.cgoSdp).2 },
      ?_, ?_, ?_, rfl, rfl⟩
    · simp only [SetLocalDescription, hp, hs]
      rw [if_pos h']
    · simp [LocalDescription, World.pcAt]
    · simp [RemoteDescription, World.pcAt]
  · intro h
    have h' : ¬ (0 = (E.CGOSetRemoteDescription w.eng p.cgoPeer hdr.cgoSdp).1) :=
      fun e => h e.symm
    refine ⟨"SetRemoteDescription failed.",
      { w with eng := (E.CGOSetRemoteDescription w.eng p.cgoPeer hdr.cgoSdp).2 },
      ?_, ?_, ?_, rfl, rfl⟩
    · simp only [SetRemoteDescription, hp, hs]
      rw [if_pos h']
    · simp [LocalDescription, World.pcAt]
    · simp [RemoteDescription, World.pcAt]

/-- Witness of C1: the rejecting engine on the sample world. -/
theorem rejected_set_keeps_descriptions_witness :
    (∃ msg w', SetLocalDescription rejectingEngine World.sample (Ptr.addr 0) (Ptr.addr 0)
        = some (some msg, w') ∧
      LocalDescription w' (Ptr.addr 0) = LocalDescription World.sample (Ptr.addr 0) ∧
      RemoteDescription w' (Ptr.addr 0) = RemoteDescription World.sample (Ptr.addr 0) ∧
      w'.pcs = World.sample.pcs ∧ w'.sdps = World.sample.sdps) ∧
    (∃ msg w', SetRemoteDescription rejectingEngine World.sample (Ptr.addr 0) (Ptr.addr 0)
        = some (some msg, w') ∧
      LocalDescription w' (Ptr.addr 0) = LocalDescription World.sample (Ptr.addr 0) ∧
      RemoteDescription w' (Ptr.addr 0) = RemoteDescription World.sample (Ptr.addr 0) ∧
      w'.pcs = World.sample.pcs ∧ w'.sdps = World.sample.sdps) :=
  ⟨(rejected_set_keeps_descriptions rejectingEngine World.sample (Ptr.addr 0) (Ptr.addr 0)
      samplePeer sampleHeader rfl rfl).1 (by decide),
   (rejected_set_keeps_descriptions rejectingEngine World.sample (Ptr.addr 0) (Ptr.addr 0)
      samplePeer sampleHeader rfl rfl).2 (by decide)⟩

/-- C5: when the native set call returns 0, `SetLocalDescription(sdp)` returns
the nil error, afterwards `LocalDescription()` is the pointer `sdp`, the header
it points to (native handle and serialized text) and every other stored
description are unmodified, and `RemoteDescription()` is as before;
symmetrically for `SetRemoteDescription`. -/
theorem accepted_set_installs_description {σ : Type} (E : Engine σ) (w : World σ)
    (pc sdp : Ptr) (p : PeerConnection) (hdr : SDPHeader)
    (hp : w.pcAt pc = some p) (hs : w.sdpAt sdp = some hdr) :
    ((E.CGOSetLocalDescription w.eng p.cgoPeer hdr.cgoSdp).1 = 0 →
      ∃ w', SetLocalDescription E w pc sdp = some (none, w') ∧
        LocalDescription w' pc = some sdp ∧
        w'.sdpAt sdp = some hdr ∧ w'.sdps = w.sdps ∧
        RemoteDescription w' pc = RemoteDescription w pc) ∧
    ((E.CGOSetRemoteDescription w.eng p.cgoPeer hdr.cgoSdp).1 = 0 →
      ∃ w', SetRemoteDescription E w pc sdp = some (none, w') ∧
        RemoteDescription w' pc = some sdp ∧
        w'.sdpAt sdp = some hdr ∧ w'.sdps = w.sdps ∧
        LocalDescription w' pc = LocalDescription w pc) := by
  obtain ⟨a, rfl, hget, hlt⟩ := pcAt_addr hp
  constructor
  · intro h
    have h' : ¬ (0 ≠ (E.CGOSetLocalDescription w.eng p.cgoPeer hdr.cgoSdp).1) :=
      fun e => e h.symm
    refine ⟨{ w with
        eng := (E.CGOSetLocalDescription w.eng p.cgoPeer hdr.cgoSdp).2
        pcs := w.pcs.set a { p with localDescription := sdp } }, ?_, ?_, ?_, rfl, ?_⟩
    · simp only [SetLocalDescription, hp, hs]
      rw [if_neg h']
    · simp [LocalDescription, World.pcAt, hlt]
    · cases sdp with
      | nil => simp [World.sdpAt] at hs
      | addr b => simpa [World.sdpAt] using hs
    · simp [RemoteDescription, World.pcAt, hlt, hget]
  · intro h
    have h' : ¬ (0 ≠ (E.CGOSetRemoteDescription w.eng p.cgoPeer hdr.cgoSdp).1) :=
      fun e => e h.symm
    refine ⟨{ w with
        eng := (E.CGOSetRemoteDescription w.eng p.cgoPeer hdr.cgoSdp).2
        pcs := w.pcs.set a { p with remoteDescription := sdp } }, ?_, ?_, ?_, rfl, ?_⟩
    · simp only [SetRemoteDescription, hp, hs]
      rw [if_neg h']
    · simp [RemoteDescription, World.pcAt, hlt]
    · cases sdp with
      | nil => simp [World.sdpAt] at hs
      | addr b => simpa [World.sdpAt] using hs
    · simp [LocalDescription, World.pcAt, hlt, hget]

/-- Witness of C5: the accepting engine on the sample world. -/
theorem accepted_set_installs_description_witness :
    (∃ w', SetLocalDescription acceptingEngine World.sample (Ptr.addr 0) (Ptr.addr 0)
        = some (none, w') ∧
      LocalDescription w' (Ptr.addr 0) = some (Ptr.addr 0) ∧
      w'.sdpAt (Ptr.addr 0) = some sampleHeader ∧ w'.sdps = World.sample.sdps ∧
      RemoteDescription w' (Ptr.addr 0) = RemoteDescription World.sample (Ptr.addr 0)) ∧
    (∃ w', SetRemoteDescription acceptingEngine World.sample (Ptr.addr 0) (Ptr.addr 0)
        = some (none, w') ∧
      RemoteDescription w' (Ptr.addr 0) = some (Ptr.addr 0) ∧
      w'.sdpAt (Ptr.addr 0) = some sampleHeader ∧ w'.sdps = World.sample.sdps ∧
      LocalDescription w' (Ptr.addr 0) = LocalDescription World.sample (Ptr.addr 0)) :=
  ⟨(accepted_set_installs_description acceptingEngine World.sample (Ptr.addr 0) (Ptr.addr 0)
      samplePeer sampleHeader rfl rfl).1 (by decide),
   (accepted_set_installs_description acceptingEngine World.sample (Ptr.addr 0) (Ptr.addr 0)
      samplePeer sampleHeader rfl rfl).2 (by decide)⟩

/-- C4: `CreateOffer()` and `CreateAnswer()` return (they do not panic on a
live peer connection) and, whether they succeed or fail, leave every
`PeerConnection` object as it was: the local and the remote description
pointers are unchanged and so is every description already stored. -/
theorem create_does_not_mutate {σ : Type} (E : Engine σ) (w : World σ)
    (pc : Ptr) (p : PeerConnection) (hp : w.pcAt pc = some p) :
    (∃ res w', CreateOffer E w pc = some (res, w') ∧ w'.pcs = w.pcs ∧
      LocalDescription w' pc = LocalDescription w pc ∧
      RemoteDescription w' pc = RemoteDescription w pc ∧
      ∀ q hdr, w.sdpAt q = some hdr → w'.sdpAt q = some hdr) ∧
    (∃ res w', CreateAnswer E w pc = some (res, w') ∧ w'.pcs = w.pcs ∧
      LocalDescription w' pc = LocalDescription w pc ∧
      RemoteDescription w' pc = RemoteDescription w pc ∧
      ∀ q hdr, w.sdpAt q = some hdr → w'.sdpAt q = some hdr) := by
  constructor
  · by_cases h : (E.CGOCreateOffer w.eng p.cgoPeer).1 = 0
    · refine ⟨_, _, CreateOffer_null E w pc p hp h, rfl, ?_, ?_, ?_⟩
      · simp [LocalDescription, World.pcAt]
      · simp [RemoteDescription, World.pcAt]
      · intro q hdr hq
        exact hq
    · refine ⟨_, _, CreateOffer_handle E w pc p hp h, rfl, ?_, ?_, ?_⟩
      · simp [LocalDescription, World.pcAt]
      · simp [RemoteDescription, World.pcAt]
      · intro q hdr hq
        exact sdpAt_append w q hdr _ hq _ rfl
  · by_cases h : (E.CGOCreateAnswer w.eng p.cgoPeer).1 = 0
    · refine ⟨_, _, CreateAnswer_null E w pc p hp h, rfl, ?_, ?_, ?_⟩
      · simp [LocalDescription, World.pcAt]
      · simp [RemoteDescription, World.pcAt]
      · intro q hdr hq
        exact hq
    · refine ⟨_, _, CreateAnswer_handle E w pc p hp h, rfl, ?_, ?_, ?_⟩
      · simp [LocalDescription, World.pcAt]
      · simp [RemoteDescription, World.pcAt]
      · intro q hdr hq
        exact sdpAt_append w q hdr _ hq _ rfl

/-- Witness of C4: the accepting engine on the sample world. -/
theorem create_does_not_mutate_witness :
    (∃ res w', CreateOffer acceptingEngine World.sample (Ptr.addr 0) = some (res, w') ∧
      w'.pcs = World.sample.pcs ∧
      LocalDescription w' (Ptr.addr 0) = LocalDescription World.sample (Ptr.addr 0) ∧
      RemoteDescription w' (Ptr.addr 0) = RemoteDescription World.sample (Ptr.addr 0) ∧
      ∀ q hdr, World.sample.sdpAt q = some hdr → w'.sdpAt q = some hdr) ∧
    (∃ res w', CreateAnswer acceptingEngine World.sample (Ptr.addr 0) = some (res, w') ∧
      w'.pcs = World.sample.pcs ∧
      LocalDescription w' (Ptr.addr 0) = LocalDescription World.sample (Ptr.addr 0) ∧
      RemoteDescription w' (Ptr.addr 0) = RemoteDescription World.sample (Ptr.addr 0) ∧
      ∀ q hdr, World.sample.sdpAt q = some hdr → w'.sdpAt q = some hdr) :=
  create_does_not_mutate acceptingEngine World.sample (Ptr.addr 0) samplePeer rfl

/-- C9: on a live peer connection `CreateOffer()` returns the nil description
with an error when the engine's offer is the null handle, and only then;
otherwise it returns the nil error and a pointer to a newly allocated
`SDPHeader` whose handle is the one the engine returned and whose text is the
engine's serialization of that handle. `CreateAnswer()` does the same with the
engine's answer call. -/
theorem create_follows_engine {σ : Type} (E : Engine σ) (w : World σ)
    (pc : Ptr) (p : PeerConnection) (hp : w.pcAt pc = some p) :
    (∃ d err w', CreateOffer E w pc = some ((d, err), w') ∧
      (err ≠ none ↔ (E.CGOCreateOffer w.eng p.cgoPeer).1 = 0) ∧
      ((E.CGOCreateOffer w.eng p.cgoPeer).1 = 0 → d = Ptr.nil) ∧
      ((E.CGOCreateOffer w.eng p.cgoPeer).1 ≠ 0 →
        w.sdpAt d = none ∧
        w'.sdpAt d = some {
          cgoSdp := (E.CGOCreateOffer w.eng p.cgoPeer).1
          description := GoString (E.CGOSerializeSDP (E.CGOCreateOffer w.eng p.cgoPeer).2
            (E.CGOCreateOffer w.eng p.cgoPeer).1).1 })) ∧
    (∃ d err w', CreateAnswer E w pc = some ((d, err), w') ∧
      (err ≠ none ↔ (E.CGOCreateAnswer w.eng p.cgoPeer).1 = 0) ∧
      ((E.CGOCreateAnswer w.eng p.cgoPeer).1 = 0 → d = Ptr.nil) ∧
      ((E.CGOCreateAnswer w.eng p.cgoPeer).1 ≠ 0 →
        w.sdpAt d = none ∧
        w'.sdpAt d = some {
          cgoSdp := (E.CGOCreateAnswer w.eng p.cgoPeer).1
          description := GoString (E.CGOSerializeSDP (E.CGOCreateAnswer w.eng p.cgoPeer).2
            (E.CGOCreateAnswer w.eng p.cgoPeer).1).1 })) := by
  constructor
  · by_cases h : (E.CGOCreateOffer w.eng p.cgoPeer).1 = 0
    · exact ⟨_, _, _, CreateOffer_null E w pc p hp h, by simp [h], fun _ => rfl,
        fun hne => absurd h hne⟩
    · refine ⟨_, _, _, CreateOffer_handle E w pc p hp h, by simp [h],
        fun h0 => absurd h0 h, fun _ => ⟨?_, ?_⟩⟩
      · simp [World.sdpAt]
      · simp [World.sdpAt]
  · by_cases h : (E.CGOCreateAnswer w.eng p.cgoPeer).1 = 0
    · exact ⟨_, _, _, CreateAnswer_null E w pc p hp h, by simp [h], fun _ => rfl,
        fun hne => absurd h hne⟩
    · refine ⟨_, _, _, CreateAnswer_handle E w pc p hp h, by simp [h],
        fun h0 => absurd h0 h, fun _ => ⟨?_, ?_⟩⟩
      · simp [World.sdpAt]
      · simp [World.sdpAt]

/-- Witness of C9: the accepting engine on the sample world returns the new
header at address 1 with handle 5 (offer) or 6 (answer) and text `v=0`. -/
theorem create_follows_engine_witness :
    (∃ d err w', CreateOffer acceptingEngine World.sample (Ptr.addr 0) = some ((d, err), w') ∧
      (err ≠ none ↔ (5 : Nat) = 0) ∧ ((5 : Nat) = 0 → d = Ptr.nil) ∧
      ((5 : Nat) ≠ 0 → World.sample.sdpAt d = none ∧
        w'.sdpAt d = some { cgoSdp := 5, description := "v=0" })) ∧
    (∃ d err w', CreateAnswer acceptingEngine World.sample (Ptr.addr 0) = some ((d, err), w') ∧
      (err ≠ none ↔ (6 : Nat) = 0) ∧ ((6 : Nat) = 0 → d = Ptr.nil) ∧
      ((6 : Nat) ≠ 0 → World.sample.sdpAt d = none ∧
        w'.sdpAt d = some { cgoSdp := 6, description := "v=0" })) :=
  create_follows_engine acceptingEngine World.sample (Ptr.addr 0) samplePeer rfl

/-- C10: on a live peer connection `CreateDataChannel` never reports failure:
for every label text, every `DataChannelInit` and every engine it returns a non-nil
pointer to a `DataChannel` together with the nil error, and it leaves every
`PeerConnection` object, hence the local and remote descriptions, and every
stored description unchanged. -/
theorem create_data_channel_never_fails {σ : Type} (E : Engine σ) (w : World σ)
    (pc : Ptr) (p : PeerConnection) (labelText : String) (dict : DataChannelInit)
    (hp : w.pcAt pc = some p) :
    ∃ d w', CreateDataChannel E w pc labelText dict = some ((d, none), w') ∧
      d ≠ Ptr.nil ∧ w'.dcAt d = some {} ∧
      LocalDescription w' pc = LocalDescription w pc ∧
      RemoteDescription w' pc = RemoteDescription w pc ∧
      w'.pcs = w.pcs ∧ w'.sdps = w.sdps := by
  refine ⟨Ptr.addr w.dcs.length,
    { w with
      eng := E.CGOCreateDataChannel w.eng p.cgoPeer (CString labelText) dict
      dcs := w.dcs ++ [{}] }, ?_, ?_, ?_, ?_, ?_, rfl, rfl⟩
  · simp only [CreateDataChannel, hp]
  · simp
  · simp [World.dcAt]
  · simp [LocalDescription, World.pcAt]
  · simp [RemoteDescription, World.pcAt]

/-- Witness of C10: a channel labelled `chat` on the sample world. -/
theorem create_data_channel_never_fails_witness :
    ∃ d w', CreateDataChannel rejectingEngine World.sample (Ptr.addr 0) "chat" {}
        = some ((d, none), w') ∧
      d ≠ Ptr.nil ∧ w'.dcAt d = some {} ∧
      LocalDescription w' (Ptr.addr 0) = LocalDescription World.sample (Ptr.addr 0) ∧
      RemoteDescription w' (Ptr.addr 0) = RemoteDescription World.sample (Ptr.addr 0) ∧
      w'.pcs = World.sample.pcs ∧ w'.sdps = World.sample.sdps :=
  create_data_channel_never_fails rejectingEngine World.sample (Ptr.addr 0) samplePeer
    "chat" {} rfl

/-- C7: `NewRTCConfiguration()` returns a pointer to a configuration holding
the default values: IceTransportPolicy `all`, BundlePolicy `balanced`,
RtcpMuxPolicy `require`, IceCandidatePoolSize 0, PeerIdentity empty, and
IceServers and Certificates of length 0. -/
theorem new_configuration_defaults {σ : Type} (w : World σ) :
    ∃ c, (NewRTCConfiguration w).2.configAt (NewRTCConfiguration w).1 = some c ∧
      c.IceTransportPolicy = "all" ∧ c.BundlePolicy = "balanced" ∧
      c.RtcpMuxPolicy = "require" ∧ c.IceCandidatePoolSize = 0 ∧
      c.PeerIdentity = "" ∧ c.IceServers.len = 0 ∧ c.Certificates.len = 0 := by
  refine ⟨{ RTCConfiguration.zero with
      IceTransportPolicy := "all", BundlePolicy := "balanced", RtcpMuxPolicy := "require",
      Certificates := some [] }, ?_, rfl, rfl, rfl, rfl, rfl, rfl, rfl⟩
  simp [NewRTCConfiguration, World.configAt, RTCConfiguration.zero]

/-- C3 (failing path): when the engine's session initialisation returns the
null peer, `NewPeerConnection` returns an error together with a non-nil
pointer to the `PeerConnection` it has just allocated, whatever the
configuration pointer is. -/
theorem failed_initialization_returns_connection {σ : Type} (E : Engine σ) (w : World σ)
    (config : Ptr) (h : (E.CGOInitializePeer w.eng).1 = 0) :
    ∃ w', NewPeerConnection E w config
        = some ((Ptr.addr w.pcs.length, some "PeerConnection: failed to initialize."), w') ∧
      Ptr.addr w.pcs.length ≠ Ptr.nil ∧
      w.pcAt (Ptr.addr w.pcs.length) = none ∧
      w'.pcAt (Ptr.addr w.pcs.length) = some PeerConnection.zero := by
  refine ⟨_, NewPeerConnection_dead E w config h, by simp, by simp [World.pcAt], ?_⟩
  simp [World.pcAt, h, PeerConnection.zero]

/-- Witness of C3: the engine that cannot initialise, on a default configuration. -/
theorem failed_initialization_returns_connection_witness :
    ∃ w', NewPeerConnection deadEngine World.configured (Ptr.addr 0)
        = some ((Ptr.addr 0, some "PeerConnection: failed to initialize."), w') ∧
      Ptr.addr 0 ≠ Ptr.nil ∧
      World.configured.pcAt (Ptr.addr 0) = none ∧
      w'.pcAt (Ptr.addr 0) = some PeerConnection.zero :=
  failed_initialization_returns_connection deadEngine World.configured (Ptr.addr 0) rfl

/-- The other failure path of `NewPeerConnection`: when the session initialises
and the engine refuses the configuration, the returned pointer is nil. -/
theorem refused_configuration_returns_nil {σ : Type} (E : Engine σ) (w : World σ)
    (config : Ptr) (cfg : RTCConfiguration) (hc : w.configAt config = some cfg)
    (h : (E.CGOInitializePeer w.eng).1 ≠ 0)
    (hr : (E.CGOCreatePeerConnection (E.CGOInitializePeer w.eng).2
      (E.CGOInitializePeer w.eng).1 (nativeCopy cfg)).1 ≠ 0) :
    ∃ w', NewPeerConnection E w config
      = some ((Ptr.nil, some "PeerConnection: could not create from config."), w') := by
  obtain ⟨a, rfl, hget, -⟩ := configAt_addr hc
  rw [NewPeerConnection_live E w a cfg hget h, if_pos hr]
  exact ⟨_, rfl⟩

/-- C2 as stated fails: on the freshly constructed peer connection of
`World.connected`, whose remote description is nil, `CreateAnswer()` with the
accepting engine returns a description (address 0, handle 6) and the nil error. -/
theorem create_answer_without_remote_succeeds :
    NewPeerConnection acceptingEngine World.configured (Ptr.addr 0)
      = some ((Ptr.addr 0, none), World.connected) ∧
    RemoteDescription World.connected (Ptr.addr 0) = some Ptr.nil ∧
    (CreateAnswer acceptingEngine World.connected (Ptr.addr 0)).map Prod.fst
      = some (Ptr.addr 0, none) ∧
    (CreateAnswer acceptingEngine World.connected (Ptr.addr 0)).map
      (fun r => r.2.sdpAt (Ptr.addr 0)) = some (some { cgoSdp := 6, description := "v=0" }) :=
  ⟨rfl, rfl, rfl, rfl⟩

/-- C2 amended: on a peer connection whose remote description is nil,
`CreateAnswer()` returns; it returns the nil description with an error exactly
when the engine's answer is the null handle. Otherwise it returns the nil
error and a non-nil pointer to a header that was not stored before and that
holds the handle the engine returned and the engine's serialization of that
handle, while the remote description of the peer connection stays nil. -/
theorem create_answer_without_remote {σ : Type} (E : Engine σ) (w : World σ)
    (pc : Ptr) (p : PeerConnection) (hp : w.pcAt pc = some p)
    (hr : RemoteDescription w pc = some Ptr.nil) :
    ∃ d err w', CreateAnswer E w pc = some ((d, err), w') ∧
      ((d = Ptr.nil ∧ err ≠ none) ↔ (E.CGOCreateAnswer w.eng p.cgoPeer).1 = 0) ∧
      ((E.CGOCreateAnswer w.eng p.cgoPeer).1 ≠ 0 →
        d ≠ Ptr.nil ∧ err = none ∧
        w.sdpAt d = none ∧
        w'.sdpAt d = some {
          cgoSdp := (E.CGOCreateAnswer w.eng p.cgoPeer).1
          description := GoString (E.CGOSerializeSDP (E.CGOCreateAnswer w.eng p.cgoPeer).2
            (E.CGOCreateAnswer w.eng p.cgoPeer).1).1 }) ∧
      RemoteDescription w' pc = some Ptr.nil := by
  by_cases h : (E.CGOCreateAnswer w.eng p.cgoPeer).1 = 0
  · refine ⟨_, _, _, CreateAnswer_null E w pc p hp h, by simp [h], fun hne => absurd h hne, ?_⟩
    rw [← hr]
    simp [RemoteDescription, World.pcAt]
  · refine ⟨_, _, _, CreateAnswer_handle E w pc p hp h, by simp [h],
      fun _ => ⟨by simp, rfl, ?_, ?_⟩, ?_⟩
    · simp [World.sdpAt]
    · simp [World.sdpAt]
    · rw [← hr]
      simp [RemoteDescription, World.pcAt]

/-- Witness of C2 amended, on the freshly constructed peer connection: the
engine that cannot create descriptions makes the call fail, and the accepting
engine makes it return the header with handle 6 and text `v=0`. -/
theorem create_answer_without_remote_witness :
    (∃ d err w', CreateAnswer barrenEngine World.connected (Ptr.addr 0) = some ((d, err), w') ∧
      ((d = Ptr.nil ∧ err ≠ none) ↔ (0 : Nat) = 0) ∧
      ((0 : Nat) ≠ 0 →
        d ≠ Ptr.nil ∧ err = none ∧
        World.connected.sdpAt d = none ∧
        w'.sdpAt d = some { cgoSdp := 0, description := "" }) ∧
      RemoteDescription w' (Ptr.addr 0) = some Ptr.nil) ∧
    (∃ d err w', CreateAnswer acceptingEngine World.connected (Ptr.addr 0)
        = some ((d, err), w') ∧
      ((d = Ptr.nil ∧ err ≠ none) ↔ (6 : Nat) = 0) ∧
      ((6 : Nat) ≠ 0 →
        d ≠ Ptr.nil ∧ err = none ∧
        World.connected.sdpAt d = none ∧
        w'.sdpAt d = some { cgoSdp := 6, description := "v=0" }) ∧
      RemoteDescription w' (Ptr.addr 0) = some Ptr.nil) :=
  ⟨create_answer_without_remote barrenEngine World.connected (Ptr.addr 0) samplePeer rfl rfl,
   create_answer_without_remote acceptingEngine World.connected (Ptr.addr 0) samplePeer rfl rfl⟩

/-- Along a successful run of `NewPeerConnection`, `CreateOffer`,
`SetLocalDescription(offer)` and `SetRemoteDescription(answer)`, the peer
connection holds the offer as local description and no remote description
after the third step, and the offer and the answer after the fourth; no other
field of the object has been written since construction. -/
theorem offer_answer_scenario {σ : Type} (E : Engine σ) (w w1 w2 w3 w4 : World σ)
    (config pc offer answer : Ptr)
    (h1 : NewPeerConnection E w config = some ((pc, none), w1))
    (h2 : CreateOffer E w1 pc = some ((offer, none), w2))
    (h3 : SetLocalDescription E w2 pc offer = some (none, w3))
    (h4 : SetRemoteDescription E w3 pc answer = some (none, w4)) :
    LocalDescription w3 pc = some offer ∧ RemoteDescription w3 pc = some Ptr.nil ∧
    LocalDescription w4 pc = some offer ∧ RemoteDescription w4 pc = some answer ∧
    w4.pcAt pc = some {
      localDescription := offer
      remoteDescription := answer
      OnIceCandidate := none
      IceServers := ""
      cgoPeer := (E.CGOInitializePeer w.eng).1 } := by
  obtain ⟨rfl, e1⟩ := NewPeerConnection_ok h1
  have e2 := CreateOffer_ok h2
  obtain ⟨a, p, ha, hp, e3, -⟩ := SetLocalDescription_ok h3
  obtain ⟨b, q, hb, hq, e4, -⟩ := SetRemoteDescription_ok h4
  cases ha
  cases hb
  rw [e2, e1] at hp
  simp only [List.getElem?_concat_length, Option.some.injEq] at hp
  subst hp
  rw [e3, e2, e1] at hq
  simp at hq
  subst hq
  simp [LocalDescription, RemoteDescription, World.pcAt, e4, e3, e2, e1, PeerConnection.zero]

/-- The scenario on the default configuration with the accepting engine: the
offer is the header at address 0 and is also handed back as the answer. -/
theorem offer_answer_scenario_run :
    ∃ w2 w3 w4, CreateOffer acceptingEngine World.connected (Ptr.addr 0)
        = some ((Ptr.addr 0, none), w2) ∧
      SetLocalDescription acceptingEngine w2 (Ptr.addr 0) (Ptr.addr 0) = some (none, w3) ∧
      SetRemoteDescription acceptingEngine w3 (Ptr.addr 0) (Ptr.addr 0) = some (none, w4) ∧
      LocalDescription w3 (Ptr.addr 0) = some (Ptr.addr 0) ∧
      RemoteDescription w3 (Ptr.addr 0) = some Ptr.nil ∧
      LocalDescription w4 (Ptr.addr 0) = some (Ptr.addr 0) ∧
      RemoteDescription w4 (Ptr.addr 0) = some (Ptr.addr 0) :=
  ⟨_, _, _, rfl, rfl, rfl, rfl, rfl, rfl, rfl⟩

end Webrtc
